import Mathlib

/-!
Verification development for the gateway-cd canary rollout engine.

This file gives a shallow embedding of the reconciliation engine of the
gateway-cd repository and proves properties about it:

* the CRD types of pkg/api/v1alpha1/canary_types.go,
* the controller handlers (handlePending, handleProgressing, handlePaused,
  handleRollingBack, runAnalysis) of pkg/controller,
* the route mutator (UpdateTrafficSplit, updateHTTPRouteBackends) of
  pkg/gateway,
* the Prometheus analyzer (RunAnalysis, evaluateMetric, compareValues,
  getSuccessRate, getAverageLatency) of pkg/metrics.

Conventions of the embedding:

* Go float64 values (metric values, thresholds, success rates) are embedded
  as rationals; only order comparisons and equality are performed on them.
* Go int/int32 values are embedded as Int (weights) or Nat (step indices,
  which the source keeps non-negative).
* Wall-clock instants (metav1.Time) are embedded as Nat and threaded into
  handlers as an explicit parameter.
* I/O against the cluster and the metrics backend is embedded as oracle
  inputs: the route fetch result, a write success flag, and a query
  function from query strings to results.  Fallible calls return
  Except String.
* The metrics backend oracle sits at the boundary of
  PrometheusProvider.GetMetric: an unreachable backend, a non-200 reply, a
  non-success status, or an empty result all surface as Except.error there,
  exactly as in the source.
-/

/-- Phase of a canary deployment (type CanaryDeploymentPhase and its
constants in canary_types.go).  The empty-string initial value handled by
Reconcile before dispatch is not modelled; the handlers embedded here are
only reached with one of these six values. -/
inductive CanaryDeploymentPhase where
  | Pending
  | Progressing
  | Paused
  | Succeeded
  | Failed
  | RollingBack
deriving DecidableEq, Repr, Inhabited

/-- One traffic split step (TrafficSplitStep). -/
structure TrafficSplitStep where
  weight : Int
  duration : String
  pause : Bool
deriving DecidableEq, Repr, Inhabited

/-- A named metric criterion (AnalysisMetric). -/
structure AnalysisMetric where
  name : String
  query : String
  threshold : Rat
  operator : String
deriving DecidableEq, Repr, Inhabited

/-- Success criteria for canary analysis (AnalysisTemplate). -/
structure AnalysisTemplate where
  metrics : List AnalysisMetric
  successRate : Rat
  maxLatency : Int
  analysisInterval : String
deriving DecidableEq, Repr, Inhabited

/-- Reference to the target workload (WorkloadRef). -/
structure WorkloadRef where
  apiVersion : String
  kind : String
  name : String
deriving DecidableEq, Repr, Inhabited

/-- Reference to the stable service (ServiceRef). -/
structure ServiceRef where
  name : String
  port : Int
deriving DecidableEq, Repr, Inhabited

/-- Gateway API references (GatewayRef); ns embeds the Namespace field. -/
structure GatewayRef where
  httpRoute : String
  gateway : String
  ns : String
deriving DecidableEq, Repr, Inhabited

/-- Desired state (CanaryDeploymentSpec). -/
structure CanaryDeploymentSpec where
  targetRef : WorkloadRef
  service : ServiceRef
  gateway : GatewayRef
  trafficSplit : List TrafficSplitStep
  analysis : AnalysisTemplate
  autoPromote : Bool
  skipAnalysis : Bool
deriving DecidableEq, Repr, Inhabited

/-- Result of evaluating one metric (MetricResult). -/
structure MetricResult where
  name : String
  value : Rat
  threshold : Rat
  passed : Bool
deriving DecidableEq, Repr, Inhabited

/-- Results of an analysis run as stored in status (AnalysisRunStatus). -/
structure AnalysisRunStatus where
  phase : String
  successRate : Rat
  averageLatency : Int
  metricResults : List MetricResult
  startedAt : Option Nat
  completedAt : Option Nat
deriving DecidableEq, Repr, Inhabited

/-- Observed state (CanaryDeploymentStatus).  The Conditions list is never
read or written by the embedded handlers and is omitted. -/
structure CanaryDeploymentStatus where
  phase : CanaryDeploymentPhase
  message : String
  currentStep : Nat
  canaryWeight : Int
  stableWeight : Int
  lastTransitionTime : Option Nat
  analysisRun : Option AnalysisRunStatus
deriving DecidableEq, Repr, Inhabited

/-- A CanaryDeployment object; name, ns and the annotations embed the
relevant parts of ObjectMeta.  Annotations are an association list with
unique keys; lookup of an absent key yields the empty string like a Go map
read. -/
structure CanaryDeployment where
  name : String
  ns : String
  annotations : List (String × String)
  spec : CanaryDeploymentSpec
  status : CanaryDeploymentStatus
deriving DecidableEq, Repr, Inhabited

/-- Go map read canary.Annotations[key]: the stored value, or the empty
string when the key is absent. -/
def getAnnot (canary : CanaryDeployment) (key : String) : String :=
  ((canary.annotations.lookup key).getD (""))

/-- Go delete(canary.Annotations, key). -/
def removeAnnot (anns : List (String × String)) (key : String) :
    List (String × String) :=
  anns.filter (fun kv => kv.1 != key)

/-! ## Route objects (the slice of the Gateway API the mutator touches) -/

/-- One match predicate of a route rule.  The source never inspects the
contents of a match; the zero value gatewayapi.HTTPRouteMatch\x7b\x7d is the
all-none record. -/
structure HTTPRouteMatch where
  path : Option String
  headers : List (String × String)
  queryParams : List (String × String)
  method : Option String
deriving DecidableEq, Repr, Inhabited

/-- The zero value gatewayapi.HTTPRouteMatch placed into rules that have no
match predicate. -/
def emptyHTTPRouteMatch : HTTPRouteMatch :=
  { path := none, headers := [], queryParams := [], method := none }

/-- One backend reference of a route rule, flattening
HTTPBackendRef/BackendRef/BackendObjectReference to the fields the source
sets: name, port and weight. -/
structure HTTPBackendRef where
  name : String
  port : Int
  weight : Int
deriving DecidableEq, Repr, Inhabited

/-- One rule of an HTTPRoute.  filters stands for the rule fields the
mutator never touches. -/
structure HTTPRouteRule where
  name : Option String
  matchList : List HTTPRouteMatch
  filters : List String
  backendRefs : List HTTPBackendRef
deriving DecidableEq, Repr, Inhabited

/-- The spec of an HTTPRoute. -/
structure HTTPRouteSpec where
  parentRefs : List String
  hostnames : List String
  rules : List HTTPRouteRule
deriving DecidableEq, Repr, Inhabited

/-- An HTTPRoute object. -/
structure HTTPRoute where
  name : String
  ns : String
  spec : HTTPRouteSpec
deriving DecidableEq, Repr, Inhabited

/-! ## Route mutator (pkg/gateway, updateHTTPRouteBackends / UpdateTrafficSplit) -/

/-- The stable backend reference built at the top of
updateHTTPRouteBackends: the stable service name and port with the given
stable weight. -/
def stableBackendRef (canary : CanaryDeployment) (stableWeight : Int) :
    HTTPBackendRef :=
  { name := canary.spec.service.name, port := canary.spec.service.port,
    weight := stableWeight }

/-- The canary backend reference built in updateHTTPRouteBackends: the
stable service name suffixed with -canary, same port, given canary
weight. -/
def canaryBackendRef (canary : CanaryDeployment) (canaryWeight : Int) :
    HTTPBackendRef :=
  { name := canary.spec.service.name ++ ("-canary"),
    port := canary.spec.service.port, weight := canaryWeight }

/-- The per-rule body of the loop in updateHTTPRouteBackends: insert a
default (match-all) predicate when the rule has none, then replace the
backendRefs according to the weight. -/
def updateRule (stable canaryB : HTTPBackendRef) (canaryWeight : Int)
    (rule : HTTPRouteRule) : HTTPRouteRule :=
  let rule :=
    if rule.matchList.length = 0 then {rule with matchList := [emptyHTTPRouteMatch]}
    else rule
  if canaryWeight = 0 then {rule with backendRefs := [stable]}
  else if canaryWeight = 100 then {rule with backendRefs := [canaryB]}
  else {rule with backendRefs := [stable, canaryB]}

/-- updateHTTPRouteBackends (pkg/gateway).  The Go function mutates the
route in place and returns a nil error on every path; the embedding returns
the updated route. -/
def updateHTTPRouteBackends (httpRoute : HTTPRoute)
    (canary : CanaryDeployment) (canaryWeight : Int) : HTTPRoute :=
  {httpRoute with spec := {httpRoute.spec with
      rules := httpRoute.spec.rules.map
        (updateRule (stableBackendRef canary (100 - canaryWeight))
          (canaryBackendRef canary canaryWeight) canaryWeight)}}

/-- Manager.UpdateTrafficSplit (pkg/gateway): fetch the route, rewrite its
backends, write it back.  The cluster is abstracted by the fetch outcome
getRoute and the write outcome writeOk; on success the written route is
returned. -/
def UpdateTrafficSplit (getRoute : Except String HTTPRoute) (writeOk : Bool)
    (canary : CanaryDeployment) (canaryWeight : Int) :
    Except String HTTPRoute :=
  match getRoute with
  | Except.error e => Except.error (("failed to get HTTPRoute: ") ++ e)
  | Except.ok httpRoute =>
      let updated := updateHTTPRouteBackends httpRoute canary canaryWeight
      if writeOk then Except.ok updated
      else Except.error ("failed to update HTTPRoute")

/-- Sum of the weights of a rule's backend references. -/
def backendWeightSum (refs : List HTTPBackendRef) : Int :=
  (refs.map HTTPBackendRef.weight).sum

/-! ## Analyzer (pkg/metrics) -/

/-- The metrics backend as seen through PrometheusProvider.GetMetric: a
query string goes in, a scalar comes back, or an error (unreachable
backend, non-200 status, status other than success, empty result, or an
unparsable value). -/
abbrev Backend := String -> Except String Rat

/-- Result of a provider analysis run (AnalysisResult in pkg/metrics). -/
structure AnalysisResult where
  phase : String
  successRate : Rat
  averageLatency : Int
  metricResults : List MetricResult
  startedAt : Option Nat
  completedAt : Option Nat
  passed : Bool
deriving DecidableEq, Repr, Inhabited

/-- compareValues (pkg/metrics): compare a measured value to the threshold
with the declared operator; unknown operators compare as false. -/
def compareValues (value threshold : Rat) (operator : String) : Bool :=
  if operator = (">") then decide (threshold < value)
  else if operator = (">=") then decide (threshold <= value)
  else if operator = ("<") then decide (value < threshold)
  else if operator = ("<=") then decide (value <= threshold)
  else if operator = ("==") then decide (value = threshold)
  else if operator = ("!=") then decide (value ≠ threshold)
  else false

/-- Character-level model of Go strings.ReplaceAll: replace non-overlapping
occurrences of the pattern left to right.  Written as fuel recursion over
the character list so that closed instances reduce inside the kernel (the
standard library replacement is defined by well-founded recursion and does
not). -/
def replaceCharsFuel (pat rep : List Char) : Nat → List Char → List Char
  | _, [] => []
  | 0, l => l
  | fuel + 1, c :: rest =>
      if pat.isPrefixOf (c :: rest) then
        rep ++ replaceCharsFuel pat rep fuel ((c :: rest).drop pat.length)
      else c :: replaceCharsFuel pat rep fuel rest

/-- strings.ReplaceAll on strings; an empty pattern (never produced by the
source) leaves the string unchanged. -/
def replaceAllModel (s pat rep : String) : String :=
  if pat = ("") then s
  else String.mk (replaceCharsFuel pat.data rep.data s.data.length s.data)

/-- replaceQueryPlaceholders (pkg/metrics).  The Go code ranges over a map
of four disjoint placeholder patterns in unspecified order; the embedding
fixes the order in which the source lists them, which only matters if a
substituted value itself contains a placeholder. -/
def replaceQueryPlaceholders (query : String) (canary : CanaryDeployment) :
    String :=
  let result := replaceAllModel query ("\x7b\x7b.Service\x7d\x7d")
      canary.spec.service.name
  let result := replaceAllModel result ("\x7b\x7b.CanaryService\x7d\x7d")
      (canary.spec.service.name ++ ("-canary"))
  let result := replaceAllModel result ("\x7b\x7b.Namespace\x7d\x7d") canary.ns
  let result := replaceAllModel result ("\x7b\x7b.Name\x7d\x7d") canary.name
  result

/-- evaluateMetric (pkg/metrics): substitute placeholders, query the
backend, compare against the threshold. -/
def evaluateMetric (backend : Backend) (canary : CanaryDeployment)
    (metric : AnalysisMetric) : Except String MetricResult :=
  let query := replaceQueryPlaceholders metric.query canary
  match backend query with
  | Except.error e => Except.error e
  | Except.ok value =>
      Except.ok
        { name := metric.name, value := value, threshold := metric.threshold,
          passed := compareValues value metric.threshold metric.operator }

/-- The success-rate query built by getSuccessRate (pkg/metrics), a Go raw
string with fmt.Sprintf substitution of the service name. -/
def successRateQuery (canary : CanaryDeployment) : String :=
  ("\n\t\tsum(rate(http_requests_total\x7bservice=\"") ++
  canary.spec.service.name ++
  ("-canary\",code!~\"5..\"\x7d[5m])) /\n\t\tsum(rate(http_requests_total\x7bservice=\"") ++
  canary.spec.service.name ++ ("-canary\"\x7d[5m]))\n\t")

/-- getSuccessRate (pkg/metrics). -/
def getSuccessRate (backend : Backend) (canary : CanaryDeployment) :
    Except String Rat :=
  backend (successRateQuery canary)

/-- The p95 latency query built by getAverageLatency (pkg/metrics). -/
def latencyQuery (canary : CanaryDeployment) : String :=
  ("\n\t\thistogram_quantile(0.95,\n\t\t\tsum(rate(http_request_duration_seconds_bucket\x7bservice=\"") ++
  canary.spec.service.name ++
  ("-canary\"\x7d[5m])) by (le)\n\t\t) * 1000\n\t")

/-- Go conversion int32(v) from float64: truncation toward zero (overflow
of the int32 range is not modelled; no claim depends on it). -/
def int32Trunc (q : Rat) : Int :=
  if 0 <= q then q.floor else q.ceil

/-- getAverageLatency (pkg/metrics). -/
def getAverageLatency (backend : Backend) (canary : CanaryDeployment) :
    Except String Int :=
  match backend (latencyQuery canary) with
  | Except.error e => Except.error e
  | Except.ok value => Except.ok (int32Trunc value)

/-- The metric loop at the top of RunAnalysis (pkg/metrics): evaluate each
configured metric in order, appending its result and clearing the overall
passed flag when a metric fails; a query error aborts the run with
phase Failed, passed false and the wrapped error. -/
def runMetricsLoop (backend : Backend) (canary : CanaryDeployment) :
    List AnalysisMetric -> AnalysisResult -> AnalysisResult × Option String
  | [], result => (result, none)
  | metric :: rest, result =>
      match evaluateMetric backend canary metric with
      | Except.error e =>
          ({result with phase := ("Failed"), passed := false},
           some (("failed to evaluate metric ") ++ metric.name ++ (": ") ++ e))
      | Except.ok metricResult =>
          let result :=
            {result with metricResults := result.metricResults ++ [metricResult]}
          let result :=
            if metricResult.passed then result else {result with passed := false}
          runMetricsLoop backend canary rest result

/-- The success-rate check of RunAnalysis (pkg/metrics): when a minimum
success rate is configured, query it, record it, and clear passed when it
is below the minimum; a query error aborts the run. -/
def runAnalysisSuccessRate (backend : Backend) (canary : CanaryDeployment)
    (result : AnalysisResult) : AnalysisResult × Option String :=
  if 0 < canary.spec.analysis.successRate then
    match getSuccessRate backend canary with
    | Except.error e =>
        ({result with phase := ("Failed"), passed := false},
         some (("failed to get success rate: ") ++ e))
    | Except.ok successRate =>
        let result := {result with successRate := successRate}
        let result :=
          if successRate < canary.spec.analysis.successRate then
            {result with passed := false}
          else result
        (result, none)
  else (result, none)

/-- The latency check of RunAnalysis (pkg/metrics): when a maximum latency
is configured, query it, record it, and clear passed when it exceeds the
maximum; a query error aborts the run. -/
def runAnalysisLatency (backend : Backend) (canary : CanaryDeployment)
    (result : AnalysisResult) : AnalysisResult × Option String :=
  if 0 < canary.spec.analysis.maxLatency then
    match getAverageLatency backend canary with
    | Except.error e =>
        ({result with phase := ("Failed"), passed := false},
         some (("failed to get latency: ") ++ e))
    | Except.ok latency =>
        let result := {result with averageLatency := latency}
        let result :=
          if canary.spec.analysis.maxLatency < latency then
            {result with passed := false}
          else result
        (result, none)
  else (result, none)

/-- PrometheusProvider.RunAnalysis (pkg/metrics).  The Go method returns
the partially filled result object together with a non-nil error when any
query fails; startTime and endTime embed the two time.Now() readings. -/
def RunAnalysis (backend : Backend) (canary : CanaryDeployment)
    (startTime endTime : Nat) : AnalysisResult × Option String :=
  let result : AnalysisResult :=
    { phase := ("Running"), successRate := 0, averageLatency := 0,
      metricResults := [], startedAt := some startTime, completedAt := none,
      passed := true }
  match runMetricsLoop backend canary canary.spec.analysis.metrics result with
  | (result, some e) => (result, some e)
  | (result, none) =>
      match runAnalysisSuccessRate backend canary result with
      | (result, some e) => (result, some e)
      | (result, none) =>
          match runAnalysisLatency backend canary result with
          | (result, some e) => (result, some e)
          | (result, none) =>
              let result := {result with phase := ("Completed")}
              let result :=
                if result.passed then {result with phase := ("Successful")}
                else {result with phase := ("Failed")}
              ({result with completedAt := some endTime}, none)

/-! ## Reconciler (pkg/controller) -/

/-- The pair returned by every handler: ctrl.Result with its RequeueAfter
duration (in seconds) and the error value. -/
structure CtrlResult where
  requeueAfter : Option Nat
  err : Option String
deriving DecidableEq, Repr, Inhabited

/-- The cluster-side effects available to one reconcile invocation: the
outcome of fetching the referenced HTTPRoute and whether a write of it
succeeds.  Status writes of the canary object itself are modelled as
succeeding (the source mostly discards their error). -/
structure RouteEnv where
  getRoute : Except String HTTPRoute
  writeOk : Bool

/-- The value every handler produces: the canary object as left in the
cluster, the ctrl.Result/error pair, and the route as written (none when
no route write succeeded this invocation). -/
abbrev HandlerResult := CanaryDeployment × CtrlResult × Option HTTPRoute

/-- validateCanaryDeployment (pkg/controller): the source is a stub that
performs no checks and always returns nil. -/
def validateCanaryDeployment (_canary : CanaryDeployment) : Option String :=
  none

/-- handlePending (pkg/controller): on a validation error transition to
Failed recording the error, otherwise transition to Progressing with a 5 s
requeue. -/
def handlePending (now : Nat) (canary : CanaryDeployment) : HandlerResult :=
  match validateCanaryDeployment canary with
  | some e =>
      ({canary with status := {canary.status with
          phase := .Failed, message := ("Validation failed: ") ++ e}},
       { requeueAfter := none, err := some e }, none)
  | none =>
      ({canary with status := {canary.status with
          phase := .Progressing, message := ("Starting canary deployment"),
          lastTransitionTime := some now}},
       { requeueAfter := some 5, err := none }, none)

/-- Go time.ParseDuration restricted to the whole-number second, minute
and hour forms; other strings fail to parse (the controller then falls
back to its 30 s default). -/
def parseDuration (s : String) : Option Nat :=
  if s.endsWith ("s") then ((s.dropRight 1).toNat?).map (fun n => n)
  else if s.endsWith ("m") then ((s.dropRight 1).toNat?).map (fun n => n * 60)
  else if s.endsWith ("h") then ((s.dropRight 1).toNat?).map (fun n => n * 3600)
  else none

/-- The requeue delay computed at the bottom of handleProgressing: the
step's parsed duration when present and parsable, else 30 s. -/
def stepRequeue (currentStep : TrafficSplitStep) : Nat :=
  match (if currentStep.duration = ("") then none
         else parseDuration currentStep.duration) with
  | some d => d
  | none => 30

/-- The shared tail of handleProgressing: advance currentStep and requeue
after the step's dwell time. -/
def progressAdvance (canary : CanaryDeployment)
    (currentStep : TrafficSplitStep) (route : HTTPRoute) : HandlerResult :=
  ({canary with status := {canary.status with
      currentStep := canary.status.currentStep + 1}},
   { requeueAfter := some (stepRequeue currentStep), err := none }, some route)

/-- CanaryDeploymentReconciler.runAnalysis (pkg/controller): with no
provider configured analysis passes; a provider error propagates with a
false verdict and no status change; otherwise the result is recorded in
status.analysisRun and its Passed flag returned. -/
def runAnalysis (provider : Option Backend) (canary : CanaryDeployment)
    (startTime endTime : Nat) : CanaryDeployment × Bool × Option String :=
  match provider with
  | none => (canary, true, none)
  | some backend =>
      match RunAnalysis backend canary startTime endTime with
      | (_, some e) => (canary, false, some e)
      | (result, none) =>
          ({canary with status := {canary.status with
              analysisRun := some
                { phase := result.phase, successRate := result.successRate,
                  averageLatency := result.averageLatency,
                  metricResults := result.metricResults,
                  startedAt := result.startedAt,
                  completedAt := result.completedAt }}},
           result.passed, none)

/-- The step the Progressing handler operates on:
canary.Spec.TrafficSplit[canary.Status.CurrentStep] in the source (the
handler only reaches the indexing when it is in bounds; getD's default is
unreachable there). -/
def currentTrafficStep (canary : CanaryDeployment) : TrafficSplitStep :=
  canary.spec.trafficSplit.getD canary.status.currentStep default

/-- The in-memory status mutation of handleProgressing after a successful
route write: record the step's weights and the update message (lines just
after the UpdateTrafficSplit call in pkg/controller). -/
def weightUpdatedCanary (canary : CanaryDeployment)
    (currentStep : TrafficSplitStep) : CanaryDeployment :=
  {canary with status := {canary.status with
      canaryWeight := currentStep.weight,
      stableWeight := 100 - currentStep.weight,
      message := ("Traffic split updated: ") ++ toString currentStep.weight ++
        ("% canary, ") ++ toString (100 - currentStep.weight) ++ ("% stable")}}

/-- handleProgressing (pkg/controller).  Steps exhausted: Succeeded.  Route
write failure: record the error and requeue in 30 s without a phase
change.  Otherwise record the new weights; pause steps transition to
Paused; on unpaused steps, when analysis is configured
(skipAnalysis false and successRate positive) an analysis error keeps the
phase with a 30 s requeue, a failed verdict transitions to RollingBack
with a 5 s requeue, and a passing verdict (like no analysis) advances to
the next step. -/
def handleProgressing (env : RouteEnv) (provider : Option Backend)
    (now startTime endTime : Nat) (canary : CanaryDeployment) :
    HandlerResult :=
  if canary.spec.trafficSplit.length <= canary.status.currentStep then
    ({canary with status := {canary.status with
        phase := .Succeeded,
        message := ("Canary deployment completed successfully"),
        canaryWeight := 100, stableWeight := 0,
        lastTransitionTime := some now}},
     { requeueAfter := none, err := none }, none)
  else
    let currentStep := currentTrafficStep canary
    match UpdateTrafficSplit env.getRoute env.writeOk canary currentStep.weight with
    | Except.error e =>
        ({canary with status := {canary.status with
            message := ("Failed to update traffic split: ") ++ e}},
         { requeueAfter := some 30, err := none }, none)
    | Except.ok route =>
        let canary := weightUpdatedCanary canary currentStep
        if currentStep.pause then
          ({canary with status := {canary.status with
              phase := .Paused,
              message := ("Paused at step ") ++
                toString (canary.status.currentStep + 1) ++
                (" for manual approval"),
              lastTransitionTime := some now}},
           { requeueAfter := none, err := none }, some route)
        else
          if canary.spec.skipAnalysis = false ∧
              0 < canary.spec.analysis.successRate then
            match runAnalysis provider canary startTime endTime with
            | (canary, _, some e) =>
                ({canary with status := {canary.status with
                    message := ("Analysis failed: ") ++ e}},
                 { requeueAfter := some 30, err := none }, some route)
            | (canary, passed, none) =>
                if passed then progressAdvance canary currentStep route
                else
                  ({canary with status := {canary.status with
                      phase := .RollingBack,
                      message := ("Analysis failed, rolling back"),
                      lastTransitionTime := some now}},
                   { requeueAfter := some 5, err := none }, some route)
          else progressAdvance canary currentStep route

/-- handlePaused (pkg/controller): a resume annotation is consumed
(removed) and advances the step into Progressing; an abort annotation
transitions to RollingBack (without being removed); otherwise stay Paused
with a 30 s requeue. -/
def handlePaused (now : Nat) (canary : CanaryDeployment) : HandlerResult :=
  if getAnnot canary ("gateway-cd.io/resume") = ("true") then
    ({canary with
        annotations := removeAnnot canary.annotations ("gateway-cd.io/resume"),
        status := {canary.status with
          phase := .Progressing,
          currentStep := canary.status.currentStep + 1,
          message := ("Resumed from pause"),
          lastTransitionTime := some now}},
     { requeueAfter := some 5, err := none }, none)
  else if getAnnot canary ("gateway-cd.io/abort") = ("true") then
    ({canary with status := {canary.status with
        phase := .RollingBack, message := ("Aborted by user"),
        lastTransitionTime := some now}},
     { requeueAfter := some 5, err := none }, none)
  else
    (canary, { requeueAfter := some 30, err := none }, none)

/-- handleRollingBack (pkg/controller): write the route back to canary
weight 0; on failure requeue in 10 s with no state change; on success
transition to Failed with weights (0, 100). -/
def handleRollingBack (env : RouteEnv) (now : Nat)
    (canary : CanaryDeployment) : HandlerResult :=
  match UpdateTrafficSplit env.getRoute env.writeOk canary 0 with
  | Except.error _ =>
      (canary, { requeueAfter := some 10, err := none }, none)
  | Except.ok route =>
      ({canary with status := {canary.status with
          phase := .Failed, canaryWeight := 0, stableWeight := 100,
          message := ("Rollback completed"), lastTransitionTime := some now}},
       { requeueAfter := none, err := none }, some route)

/-! ## Concrete fixtures used by counterexamples and witnesses -/

/-- A well-formed two-step rollout spec with a configured success-rate
minimum. -/
def specBase : CanaryDeploymentSpec :=
  { targetRef := { apiVersion := "apps/v1", kind := "Deployment", name := "demo" },
    service := { name := "demo-svc", port := 80 },
    gateway := { httpRoute := "demo-route", gateway := "", ns := "" },
    trafficSplit := [{ weight := 20, duration := "", pause := false },
                     { weight := 100, duration := "", pause := false }],
    analysis := { metrics := [], successRate := 1, maxLatency := 0,
                  analysisInterval := "" },
    autoPromote := false, skipAnalysis := false }

/-- A status at the first step of a Progressing rollout. -/
def statusProgressing : CanaryDeploymentStatus :=
  { phase := .Progressing, message := "", currentStep := 0, canaryWeight := 0,
    stableWeight := 100, lastTransitionTime := none, analysisRun := none }

/-- A route with one match-carrying rule. -/
def routeBase : HTTPRoute :=
  { name := "demo-route", ns := "default",
    spec := { parentRefs := ["demo-gw"], hostnames := ["demo.example"],
              rules := [{ name := some "r0",
                          matchList := [{ path := some "/api", headers := [],
                                          queryParams := [], method := none }],
                          filters := ["req-header-mod"],
                          backendRefs := [{ name := "demo-svc", port := 80,
                                            weight := 100 }] }] } }

/-- A cluster environment in which the route exists and writes succeed. -/
def envOk : RouteEnv := { getRoute := Except.ok routeBase, writeOk := true }

/-- A metrics backend that is unreachable: every query errors. -/
def deadBackend : Backend := fun _ => Except.error ("connection refused")

/-- A plain rollout used by route-mutator witnesses. -/
def canaryBase : CanaryDeployment :=
  { name := "demo", ns := "default", annotations := [],
    spec := specBase, status := statusProgressing }

/-! ## C2 -/

/-- Claim C2 counterexample: a Pending rollout whose spec is malformed in
the claim's sense (trafficSplit is empty). -/
def canaryC2 : CanaryDeployment :=
  { name := "c2", ns := "default", annotations := [],
    spec := { specBase with trafficSplit := [] },
    status := { statusProgressing with phase := .Pending } }

/-- Claim C2 is false on the code: handlePending moves even an empty
trafficSplit spec to Progressing, not to Failed with a validation error,
because validateCanaryDeployment is a stub that accepts everything. -/
theorem c2_counterexample :
    canaryC2.spec.trafficSplit = [] ∧
    (handlePending 0 canaryC2).1.status.phase = .Progressing ∧
    (handlePending 0 canaryC2).1.status.phase ≠ .Failed ∧
    (handlePending 0 canaryC2).2.1 = { requeueAfter := some 5, err := none } := by
  decide

/-- Claim C2 (amended): a reconcile of a rollout in the Pending phase
always transitions it to Progressing with message Starting canary
deployment and a 5 s requeue; validateCanaryDeployment performs no checks,
so no malformed spec is ever rejected to Failed. -/
theorem c2_pending_always_progresses (now : Nat) (canary : CanaryDeployment) :
    handlePending now canary =
      ({canary with status := {canary.status with
          phase := .Progressing, message := ("Starting canary deployment"),
          lastTransitionTime := some now}},
       { requeueAfter := some 5, err := none }, none) := rfl

/-! ## C3 -/

/-- Claim C3 counterexample input: a Paused rollout carrying the promote
annotation. -/
def canaryC3 : CanaryDeployment :=
  { name := "c3", ns := "default",
    annotations := [("gateway-cd.io/promote", "true")],
    spec := specBase,
    status :=
      { statusProgressing with
        phase := .Paused, canaryWeight := 20, stableWeight := 80 } }

/-- Claim C3 is false on the code: handlePaused has no promote handling at
all.  With gateway-cd.io/promote set to true the rollout stays Paused, the
step index is not advanced to len(trafficSplit), the annotation is not
cleared, and the requeue is the 30 s stay-paused delay rather than an
immediate one. -/
theorem c3_counterexample :
    (handlePaused 0 canaryC3).1.status.phase = .Paused ∧
    (handlePaused 0 canaryC3).1.status.currentStep = 0 ∧
    getAnnot (handlePaused 0 canaryC3).1 ("gateway-cd.io/promote") = ("true") ∧
    (handlePaused 0 canaryC3).2.1 = { requeueAfter := some 30, err := none } := by
  decide

/-- Claim C3 (amended): the Paused handler recognizes only the resume and
abort annotations.  When neither is set to true — in particular when only
gateway-cd.io/promote is set — the reconcile leaves the rollout entirely
unchanged (still Paused, annotation still present) and requeues in 30 s. -/
theorem c3_promote_ignored (now : Nat) (canary : CanaryDeployment)
    (hres : getAnnot canary ("gateway-cd.io/resume") ≠ ("true"))
    (habort : getAnnot canary ("gateway-cd.io/abort") ≠ ("true")) :
    handlePaused now canary =
      (canary, { requeueAfter := some 30, err := none }, none) := by
  simp only [handlePaused, if_neg hres, if_neg habort]

/-- Witness for c3_promote_ignored at the concrete promote-carrying
rollout. -/
theorem c3_witness :
    handlePaused 0 canaryC3 =
      (canaryC3, { requeueAfter := some 30, err := none }, none) :=
  c3_promote_ignored 0 canaryC3 (by decide) (by decide)

/-! ## C4 -/

/-- Claim C4 counterexample input: a Paused rollout carrying the abort
annotation. -/
def canaryC4 : CanaryDeployment :=
  { name := "c4", ns := "default",
    annotations := [("gateway-cd.io/abort", "true")],
    spec := specBase,
    status :=
      { statusProgressing with
        phase := .Paused, canaryWeight := 20, stableWeight := 80 } }

/-- Claim C4 is false on the code: the invocation that acts on
gateway-cd.io/abort (transitioning the rollout to RollingBack) leaves the
abort annotation in place. -/
theorem c4_counterexample :
    (handlePaused 0 canaryC4).1.status.phase = .RollingBack ∧
    getAnnot (handlePaused 0 canaryC4).1 ("gateway-cd.io/abort") = ("true") ∧
    (handlePaused 0 canaryC4).1.annotations = canaryC4.annotations := by
  decide

/-- Claim C4 (amended): acting on resume does remove that annotation, but
the Paused-phase reconcile that acts on gateway-cd.io/abort = true
transitions to RollingBack with a 5 s requeue while leaving the
annotations — the abort annotation included — unchanged. -/
theorem c4_abort_keeps_annot (now : Nat) (canary : CanaryDeployment)
    (hres : getAnnot canary ("gateway-cd.io/resume") ≠ ("true"))
    (habort : getAnnot canary ("gateway-cd.io/abort") = ("true")) :
    (handlePaused now canary).1.annotations = canary.annotations ∧
    (handlePaused now canary).1.status.phase = .RollingBack ∧
    (handlePaused now canary).1.status.message = ("Aborted by user") ∧
    (handlePaused now canary).2.1 = { requeueAfter := some 5, err := none } ∧
    (∀ (now' : Nat) (c' : CanaryDeployment),
        getAnnot c' ("gateway-cd.io/resume") = ("true") →
        (handlePaused now' c').1.annotations =
          removeAnnot c'.annotations ("gateway-cd.io/resume")) := by
  refine ⟨?_, ?_, ?_, ?_, ?_⟩
  · simp only [handlePaused, if_neg hres, if_pos habort]
  · simp only [handlePaused, if_neg hres, if_pos habort]
  · simp only [handlePaused, if_neg hres, if_pos habort]
  · simp only [handlePaused, if_neg hres, if_pos habort]
  · intro now' c' h
    simp only [handlePaused, if_pos h]

/-- Witness for c4_abort_keeps_annot at the concrete abort-carrying
rollout. -/
theorem c4_witness :
    (handlePaused 0 canaryC4).1.annotations = canaryC4.annotations ∧
    (handlePaused 0 canaryC4).1.status.phase = .RollingBack :=
  ⟨(c4_abort_keeps_annot 0 canaryC4 (by decide) (by decide)).1,
   (c4_abort_keeps_annot 0 canaryC4 (by decide) (by decide)).2.1⟩

/-! ## C6 -/

/-- Claim C6: for a canary weight in [0,100], every rule of the rewritten
route carries exactly the claimed backendRefs — stable only at weight 0,
canary only at weight 100, the stable-then-canary pair with weights
(100 - w, w) otherwise — and in each case the rule's weights sum to 100. -/
theorem c6_backend_weights (route : HTTPRoute) (canary : CanaryDeployment)
    (w : Int) (h0 : 0 ≤ w) (h1 : w ≤ 100) :
    ∀ rule ∈ (updateHTTPRouteBackends route canary w).spec.rules,
      rule.backendRefs =
        (if w = 0 then [stableBackendRef canary (100 - w)]
         else if w = 100 then [canaryBackendRef canary w]
         else [stableBackendRef canary (100 - w), canaryBackendRef canary w]) ∧
      backendWeightSum rule.backendRefs = 100 := by
  intro rule hrule
  simp only [updateHTTPRouteBackends, List.mem_map] at hrule
  obtain ⟨r, -, rfl⟩ := hrule
  unfold updateRule
  by_cases hw0 : w = 0
  · subst hw0
    simp [backendWeightSum, stableBackendRef]
  · by_cases hw100 : w = 100
    · subst hw100
      simp [backendWeightSum, canaryBackendRef]
    · simp only [if_neg hw0, if_neg hw100]
      refine ⟨trivial, ?_⟩
      simp [backendWeightSum, stableBackendRef, canaryBackendRef, sub_add_cancel]

/-- Witness for c6_backend_weights: the mixed-weight case at w = 30 on the
first rule of the concrete route. -/
theorem c6_witness :
    ((updateHTTPRouteBackends routeBase canaryBase 30).spec.rules.getD 0 default).backendRefs =
      [stableBackendRef canaryBase 70, canaryBackendRef canaryBase 30] ∧
    backendWeightSum
      ((updateHTTPRouteBackends routeBase canaryBase 30).spec.rules.getD 0 default).backendRefs = 100 := by
  have h := c6_backend_weights routeBase canaryBase 30 (by decide) (by decide)
      ((updateHTTPRouteBackends routeBase canaryBase 30).spec.rules.getD 0 default)
      (by decide)
  refine ⟨?_, h.2⟩
  rw [h.1]
  decide

/-! ## C7 -/

/-- A route whose single rule has an empty match list, as referenced by
claim C7. -/
def routeC7 : HTTPRoute :=
  { name := "demo-route", ns := "default",
    spec := { parentRefs := [], hostnames := [],
              rules := [{ name := none, matchList := [], filters := [],
                          backendRefs := [] }] } }

/-- Claim C7 is false on the code: on a rule whose match list is empty,
updateHTTPRouteBackends does not leave the match predicates unchanged — it
inserts a default match-all predicate. -/
theorem c7_counterexample :
    ((updateHTTPRouteBackends routeC7 canaryBase 50).spec.rules.getD 0 default).matchList
        ≠ ((routeC7.spec.rules.getD 0 default)).matchList ∧
    ((updateHTTPRouteBackends routeC7 canaryBase 50).spec.rules.getD 0 default).matchList
        = [emptyHTTPRouteMatch] := by
  decide

/-- Per-rule frame fact for updateRule: name and filters are never
touched; an empty match list becomes the single default match-all
predicate, a non-empty one is preserved. -/
theorem updateRule_frame (s cb : HTTPBackendRef) (w : Int)
    (r : HTTPRouteRule) :
    (updateRule s cb w r).name = r.name ∧
    (updateRule s cb w r).filters = r.filters ∧
    (r.matchList = [] → (updateRule s cb w r).matchList = [emptyHTTPRouteMatch]) ∧
    (r.matchList ≠ [] → (updateRule s cb w r).matchList = r.matchList) := by
  unfold updateRule
  by_cases hm : r.matchList.length = 0
  · have hnil : r.matchList = [] := List.length_eq_zero.mp hm
    simp only [if_pos hm]
    split_ifs <;> simp [hnil]
  · have hne : r.matchList ≠ [] := by
      intro hnil
      exact hm (by simp [hnil])
    simp only [if_neg hm]
    split_ifs <;> simp [hne]

/-- List.Forall₂ between a list and its image under a map, from the
pointwise fact. -/
theorem forall2_map_self {α : Type} (R : α -> α -> Prop) (f : α -> α)
    (h : ∀ a, R a (f a)) : ∀ l : List α, List.Forall₂ R l (l.map f)
  | [] => List.Forall₂.nil
  | a :: l => List.Forall₂.cons (h a) (forall2_map_self R f h l)

/-- Claim C7 (amended): updateHTTPRouteBackends modifies only the
backendRefs of each rule and, for rules whose match list is empty, the
match list (which becomes the single default match-all predicate).
Everything else is unchanged: route name, namespace, parentRefs,
hostnames, and per rule the name, the filters, and any non-empty match
list. -/
theorem c7_frame (route : HTTPRoute) (canary : CanaryDeployment) (w : Int) :
    (updateHTTPRouteBackends route canary w).name = route.name ∧
    (updateHTTPRouteBackends route canary w).ns = route.ns ∧
    (updateHTTPRouteBackends route canary w).spec.parentRefs =
      route.spec.parentRefs ∧
    (updateHTTPRouteBackends route canary w).spec.hostnames =
      route.spec.hostnames ∧
    List.Forall₂
      (fun old new =>
        new.name = old.name ∧ new.filters = old.filters ∧
        (old.matchList = [] → new.matchList = [emptyHTTPRouteMatch]) ∧
        (old.matchList ≠ [] → new.matchList = old.matchList))
      route.spec.rules (updateHTTPRouteBackends route canary w).spec.rules := by
  refine ⟨rfl, rfl, rfl, rfl, ?_⟩
  exact forall2_map_self _ _ (fun r => updateRule_frame _ _ _ r) route.spec.rules

/-- Witness for c7_frame at the concrete empty-match route and weight 50:
route-level fields survive and the rule's empty match list becomes the
default match-all predicate. -/
theorem c7_witness :
    (updateHTTPRouteBackends routeC7 canaryBase 50).spec.hostnames =
      routeC7.spec.hostnames ∧
    List.Forall₂
      (fun old new =>
        new.name = old.name ∧ new.filters = old.filters ∧
        (old.matchList = [] → new.matchList = [emptyHTTPRouteMatch]) ∧
        (old.matchList ≠ [] → new.matchList = old.matchList))
      routeC7.spec.rules (updateHTTPRouteBackends routeC7 canaryBase 50).spec.rules :=
  ⟨(c7_frame routeC7 canaryBase 50).2.2.2.1, (c7_frame routeC7 canaryBase 50).2.2.2.2⟩

/-! ## C8 -/

/-- Claim C8: from RollingBack, the Failed phase is entered exactly when
the weight-0 route write succeeds, and that invocation sets the status
weights to (0, 100) and leaves behind the weight-0 route; when the route
write errors nothing changes and the rollout is requeued in 10 s, still
RollingBack. -/
theorem c8_failed_only_after_reset (env : RouteEnv) (now : Nat)
    (canary : CanaryDeployment)
    (hphase : canary.status.phase = .RollingBack) :
    (∀ e, UpdateTrafficSplit env.getRoute env.writeOk canary 0 =
        Except.error e →
      (handleRollingBack env now canary).1 = canary ∧
      (handleRollingBack env now canary).1.status.phase = .RollingBack ∧
      (handleRollingBack env now canary).2.1 =
        { requeueAfter := some 10, err := none }) ∧
    (∀ route, UpdateTrafficSplit env.getRoute env.writeOk canary 0 =
        Except.ok route →
      (handleRollingBack env now canary).1.status.phase = .Failed ∧
      (handleRollingBack env now canary).1.status.canaryWeight = 0 ∧
      (handleRollingBack env now canary).1.status.stableWeight = 100 ∧
      (handleRollingBack env now canary).2.2 = some route) ∧
    ((handleRollingBack env now canary).1.status.phase = .Failed →
      ∃ route, UpdateTrafficSplit env.getRoute env.writeOk canary 0 =
        Except.ok route) := by
  refine ⟨?_, ?_, ?_⟩
  · intro e he
    simp [handleRollingBack, he, hphase]
  · intro route hroute
    simp [handleRollingBack, hroute]
  · intro hfail
    cases hu : UpdateTrafficSplit env.getRoute env.writeOk canary 0 with
    | error e =>
        rw [handleRollingBack, hu] at hfail
        rw [hphase] at hfail
        cases hfail
    | ok route => exact ⟨route, rfl⟩

/-- A rollout sitting in RollingBack, used to witness c8. -/
def canaryC8 : CanaryDeployment :=
  { name := "c8", ns := "default", annotations := [],
    spec := specBase,
    status :=
      { statusProgressing with
        phase := .RollingBack, canaryWeight := 20, stableWeight := 80 } }

/-- Witness for c8_failed_only_after_reset: with an existing route and a
succeeding write, the rollout lands in Failed with weights (0, 100). -/
theorem c8_witness :
    (handleRollingBack envOk 0 canaryC8).1.status.phase = .Failed ∧
    (handleRollingBack envOk 0 canaryC8).1.status.canaryWeight = 0 ∧
    (handleRollingBack envOk 0 canaryC8).1.status.stableWeight = 100 := by
  have h := (c8_failed_only_after_reset envOk 0 canaryC8 (by decide)).2.1
      (updateHTTPRouteBackends routeBase canaryC8 0) (by rfl)
  exact ⟨h.1, h.2.1, h.2.2.1⟩

/-! ## Analyzer lemmas -/

/-- Projection facts for weightUpdatedCanary, used to normalise goals. -/
theorem weightUpdatedCanary_spec (canary : CanaryDeployment)
    (s : TrafficSplitStep) :
    (weightUpdatedCanary canary s).spec = canary.spec := rfl

/-- The weight update does not touch the phase. -/
theorem weightUpdatedCanary_phase (canary : CanaryDeployment)
    (s : TrafficSplitStep) :
    (weightUpdatedCanary canary s).status.phase = canary.status.phase := rfl

/-- The weight update does not touch the step index. -/
theorem weightUpdatedCanary_step (canary : CanaryDeployment)
    (s : TrafficSplitStep) :
    (weightUpdatedCanary canary s).status.currentStep =
      canary.status.currentStep := rfl

/-- The weight update does not touch the recorded analysis run. -/
theorem weightUpdatedCanary_analysisRun (canary : CanaryDeployment)
    (s : TrafficSplitStep) :
    (weightUpdatedCanary canary s).status.analysisRun =
      canary.status.analysisRun := rfl

/-- Once the accumulated verdict is false, the metric loop keeps it
false. -/
theorem runMetricsLoop_passed_false (backend : Backend)
    (canary : CanaryDeployment) :
    ∀ (l : List AnalysisMetric) (acc : AnalysisResult),
      acc.passed = false →
      (runMetricsLoop backend canary l acc).1.passed = false
  | [], _, h => h
  | metric :: rest, acc, h => by
      simp only [runMetricsLoop]
      cases hev : evaluateMetric backend canary metric with
      | error e => rfl
      | ok mr =>
          dsimp only
          by_cases hp : mr.passed
          · rw [if_pos hp]
            exact runMetricsLoop_passed_false backend canary rest _ h
          · rw [if_neg hp]
            exact runMetricsLoop_passed_false backend canary rest _ rfl

/-- A metric whose operator compares everything as false forces the loop
verdict to false whenever it is in the list. -/
theorem runMetricsLoop_bad_op (backend : Backend)
    (canary : CanaryDeployment) (m : AnalysisMetric)
    (hop : ∀ v t : Rat, compareValues v t m.operator = false) :
    ∀ (l : List AnalysisMetric) (acc : AnalysisResult), m ∈ l →
      (runMetricsLoop backend canary l acc).1.passed = false
  | [], _, hmem => absurd hmem (List.not_mem_nil m)
  | metric :: rest, acc, hmem => by
      simp only [runMetricsLoop]
      cases hev : evaluateMetric backend canary metric with
      | error e => rfl
      | ok mr =>
          dsimp only
          rcases List.mem_cons.mp hmem with heq | hmem'
          · subst heq
            have hmr : mr.passed = false := by
              unfold evaluateMetric at hev
              dsimp only at hev
              cases hq : backend (replaceQueryPlaceholders m.query canary) with
              | error e => rw [hq] at hev; cases hev
              | ok v =>
                  rw [hq] at hev
                  cases hev
                  exact hop v m.threshold
            rw [if_neg (by simp [hmr])]
            exact runMetricsLoop_passed_false backend canary rest _ rfl
          · by_cases hp : mr.passed
            · rw [if_pos hp]
              exact runMetricsLoop_bad_op backend canary m hop rest _ hmem'
            · rw [if_neg hp]
              exact runMetricsLoop_passed_false backend canary rest _ rfl

/-- The success-rate step cannot turn a false verdict back to true. -/
theorem runAnalysisSuccessRate_passed_false (backend : Backend)
    (canary : CanaryDeployment) (result : AnalysisResult)
    (h : result.passed = false) :
    (runAnalysisSuccessRate backend canary result).1.passed = false := by
  unfold runAnalysisSuccessRate
  split
  · cases hq : getSuccessRate backend canary with
    | error e => rfl
    | ok v =>
        dsimp only
        split
        · rfl
        · exact h
  · exact h

/-- The latency step cannot turn a false verdict back to true. -/
theorem runAnalysisLatency_passed_false (backend : Backend)
    (canary : CanaryDeployment) (result : AnalysisResult)
    (h : result.passed = false) :
    (runAnalysisLatency backend canary result).1.passed = false := by
  unfold runAnalysisLatency
  split
  · cases hq : getAverageLatency backend canary with
    | error e => rfl
    | ok v =>
        dsimp only
        split
        · rfl
        · exact h
  · exact h

/-- The success-rate step never touches the metric results. -/
theorem runAnalysisSuccessRate_metricResults (backend : Backend)
    (canary : CanaryDeployment) (result : AnalysisResult) :
    (runAnalysisSuccessRate backend canary result).1.metricResults =
      result.metricResults := by
  unfold runAnalysisSuccessRate
  split
  · cases hq : getSuccessRate backend canary with
    | error e => rfl
    | ok v =>
        dsimp only
        split
        · rfl
        · rfl
  · rfl

/-- The latency step never touches the metric results. -/
theorem runAnalysisLatency_metricResults (backend : Backend)
    (canary : CanaryDeployment) (result : AnalysisResult) :
    (runAnalysisLatency backend canary result).1.metricResults =
      result.metricResults := by
  unfold runAnalysisLatency
  split
  · cases hq : getAverageLatency backend canary with
    | error e => rfl
    | ok v =>
        dsimp only
        split
        · rfl
        · rfl
  · rfl

/-- When the metric loop completes without error it has appended exactly
one result per configured metric. -/
theorem runMetricsLoop_none_length (backend : Backend)
    (canary : CanaryDeployment) :
    ∀ (l : List AnalysisMetric) (acc : AnalysisResult) (r : AnalysisResult),
      runMetricsLoop backend canary l acc = (r, none) →
      r.metricResults.length = acc.metricResults.length + l.length
  | [], acc, r, h => by
      simp only [runMetricsLoop, Prod.mk.injEq] at h
      obtain ⟨h1, -⟩ := h
      subst h1
      simp
  | metric :: rest, acc, r, h => by
      simp only [runMetricsLoop] at h
      cases hev : evaluateMetric backend canary metric with
      | error e =>
          rw [hev] at h
          simp at h
      | ok mr =>
          rw [hev] at h
          dsimp only at h
          by_cases hp : mr.passed
          · rw [if_pos hp] at h
            have hr := runMetricsLoop_none_length backend canary rest _ r h
            simp only [List.length_append, List.length_cons,
              List.length_nil] at hr ⊢
            omega
          · rw [if_neg hp] at h
            have hr := runMetricsLoop_none_length backend canary rest _ r h
            simp only [List.length_append, List.length_cons,
              List.length_nil] at hr ⊢
            omega

/-- Behaviour of the metric loop when every metric before m evaluates
cleanly and m's query errors: the loop stops at m with a Failed phase, a
false verdict, the error, exactly the results of the clean prefix, and the
remaining accumulator fields untouched. -/
theorem runMetricsLoop_error_after_ok (backend : Backend)
    (canary : CanaryDeployment) (m : AnalysisMetric) (e : String)
    (hm : evaluateMetric backend canary m = Except.error e) :
    ∀ (pre post : List AnalysisMetric) (acc : AnalysisResult),
      (∀ m' ∈ pre, ∃ res, evaluateMetric backend canary m' = Except.ok res) →
      (runMetricsLoop backend canary (pre ++ m :: post) acc).1.passed = false ∧
      (runMetricsLoop backend canary (pre ++ m :: post) acc).1.phase = ("Failed") ∧
      (runMetricsLoop backend canary (pre ++ m :: post) acc).1.completedAt =
        acc.completedAt ∧
      (runMetricsLoop backend canary (pre ++ m :: post) acc).1.startedAt =
        acc.startedAt ∧
      (runMetricsLoop backend canary (pre ++ m :: post) acc).1.successRate =
        acc.successRate ∧
      (runMetricsLoop backend canary (pre ++ m :: post) acc).1.averageLatency =
        acc.averageLatency ∧
      (runMetricsLoop backend canary (pre ++ m :: post) acc).1.metricResults.length =
        acc.metricResults.length + pre.length ∧
      (runMetricsLoop backend canary (pre ++ m :: post) acc).2.isSome = true
  | [], post, acc, _ => by
      simp only [List.nil_append, runMetricsLoop]
      rw [hm]
      exact ⟨rfl, rfl, rfl, rfl, rfl, rfl, by simp, rfl⟩
  | p :: pre, post, acc, hOk => by
      obtain ⟨res, hres⟩ := hOk p (List.mem_cons_self p pre)
      simp only [List.cons_append, runMetricsLoop]
      rw [hres]
      dsimp only
      by_cases hp : res.passed
      · rw [if_pos hp]
        obtain ⟨h1, h2, h3, h4, h5, h6, h7, h8⟩ :=
          runMetricsLoop_error_after_ok backend canary m e hm pre post
            {acc with metricResults := acc.metricResults ++ [res]}
            (fun m' hm' => hOk m' (List.mem_cons_of_mem p hm'))
        refine ⟨h1, h2, h3, h4, h5, h6, ?_, h8⟩
        refine h7.trans ?_
        simp only [List.length_append, List.length_cons, List.length_nil]
        omega
      · rw [if_neg hp]
        obtain ⟨h1, h2, h3, h4, h5, h6, h7, h8⟩ :=
          runMetricsLoop_error_after_ok backend canary m e hm pre post
            {acc with metricResults := acc.metricResults ++ [res], passed := false}
            (fun m' hm' => hOk m' (List.mem_cons_of_mem p hm'))
        refine ⟨h1, h2, h3, h4, h5, h6, ?_, h8⟩
        refine h7.trans ?_
        simp only [List.length_append, List.length_cons, List.length_nil]
        omega

/-! ## C9 -/

/-- Claim C9: if a configured metric's query errors, RunAnalysis returns
immediately with a false verdict and phase Failed; the criteria after the
failing metric are not evaluated — the results list holds exactly the
clean prefix, the success-rate and latency fields are untouched at their
zero values — and completedAt is left unset. -/
theorem c9_metric_error_short_circuits (backend : Backend)
    (canary : CanaryDeployment) (t1 t2 : Nat)
    (pre post : List AnalysisMetric) (m : AnalysisMetric) (e : String)
    (hsplit : canary.spec.analysis.metrics = pre ++ m :: post)
    (hpre : ∀ m' ∈ pre, ∃ res, evaluateMetric backend canary m' = Except.ok res)
    (hm : evaluateMetric backend canary m = Except.error e) :
    (RunAnalysis backend canary t1 t2).1.passed = false ∧
    (RunAnalysis backend canary t1 t2).1.phase = ("Failed") ∧
    (RunAnalysis backend canary t1 t2).1.completedAt = none ∧
    (RunAnalysis backend canary t1 t2).1.successRate = 0 ∧
    (RunAnalysis backend canary t1 t2).1.averageLatency = 0 ∧
    (RunAnalysis backend canary t1 t2).1.metricResults.length = pre.length ∧
    (RunAnalysis backend canary t1 t2).2.isSome = true := by
  have h := runMetricsLoop_error_after_ok backend canary m e hm pre post
      { phase := ("Running"), successRate := 0, averageLatency := 0,
        metricResults := [], startedAt := some t1, completedAt := none,
        passed := true } hpre
  unfold RunAnalysis
  dsimp only
  rw [hsplit]
  rcases hL : runMetricsLoop backend canary (pre ++ m :: post)
      { phase := ("Running"), successRate := 0, averageLatency := 0,
        metricResults := [], startedAt := some t1, completedAt := none,
        passed := true } with ⟨r0, o0⟩
  rw [hL] at h
  cases o0 with
  | none => simp at h
  | some err =>
      obtain ⟨h1, h2, h3, h4, h5, h6, h7, -⟩ := h
      exact ⟨h1, h2, h3, h5, h6, by simpa using h7, rfl⟩

/-- The first, cleanly evaluating metric of the C9 witness. -/
def metricOkC9 : AnalysisMetric :=
  { name := "good", query := "vector(1)", threshold := 2, operator := "<" }

/-- The second metric of the C9 witness, whose query errors. -/
def metricErrC9 : AnalysisMetric :=
  { name := "bad", query := "vector(2)", threshold := 2, operator := "<" }

/-- The C9 witness rollout: two named metrics plus configured success-rate
and latency criteria. -/
def canaryC9 : CanaryDeployment :=
  { name := "c9", ns := "default", annotations := [],
    spec := { specBase with
      analysis := { metrics := [metricOkC9, metricErrC9],
                    successRate := 1, maxLatency := 100,
                    analysisInterval := "" } },
    status := statusProgressing }

/-- The C9 witness backend: answers the first metric's query, errors on
everything else (including the success-rate and latency queries). -/
def backendC9 : Backend := fun q =>
  if q = ("vector(1)") then Except.ok 1
  else Except.error ("no data returned from prometheus query")

/-- Witness for c9_metric_error_short_circuits at the concrete rollout. -/
theorem c9_witness :
    (RunAnalysis backendC9 canaryC9 0 1).1.passed = false ∧
    (RunAnalysis backendC9 canaryC9 0 1).1.phase = ("Failed") ∧
    (RunAnalysis backendC9 canaryC9 0 1).1.completedAt = none ∧
    (RunAnalysis backendC9 canaryC9 0 1).1.metricResults.length = 1 := by
  have h := c9_metric_error_short_circuits backendC9 canaryC9 0 1
      [metricOkC9] [] metricErrC9
      ("no data returned from prometheus query")
      (by rfl)
      (by
        intro m' hm'
        simp only [List.mem_singleton] at hm'
        subst hm'
        exact ⟨_, by rfl⟩)
      (by rfl)
  exact ⟨h.1, h.2.1, h.2.2.1, by simpa using h.2.2.2.2.2.1⟩

/-! ## C10 -/

/-- Claim C10: an operator outside the six recognized comparison operators
makes the threshold comparison false for every value, so such a metric is
recorded as not passed and any RunAnalysis over a spec containing it
returns a false overall verdict, whatever the backend answers. -/
theorem c10_bad_operator_fails_closed (canary : CanaryDeployment)
    (m : AnalysisMetric) (hmem : m ∈ canary.spec.analysis.metrics)
    (hop : m.operator ∉ ([">", ">=", "<", "<=", "==", "!="] : List String)) :
    (∀ v t : Rat, compareValues v t m.operator = false) ∧
    (∀ (backend : Backend) (v : Rat),
        backend (replaceQueryPlaceholders m.query canary) = Except.ok v →
        evaluateMetric backend canary m =
          Except.ok { name := m.name, value := v, threshold := m.threshold,
                      passed := false }) ∧
    (∀ (backend : Backend) (t1 t2 : Nat),
        (RunAnalysis backend canary t1 t2).1.passed = false) := by
  have hcv : ∀ v t : Rat, compareValues v t m.operator = false := by
    intro v t
    unfold compareValues
    rw [if_neg (fun h => hop (by rw [h]; decide)),
        if_neg (fun h => hop (by rw [h]; decide)),
        if_neg (fun h => hop (by rw [h]; decide)),
        if_neg (fun h => hop (by rw [h]; decide)),
        if_neg (fun h => hop (by rw [h]; decide)),
        if_neg (fun h => hop (by rw [h]; decide))]
  refine ⟨hcv, ?_, ?_⟩
  · intro backend v hq
    unfold evaluateMetric
    dsimp only
    rw [hq]
    dsimp only
    rw [hcv v m.threshold]
  · intro backend t1 t2
    unfold RunAnalysis
    dsimp only
    rcases hL : runMetricsLoop backend canary canary.spec.analysis.metrics
        { phase := ("Running"), successRate := 0, averageLatency := 0,
          metricResults := [], startedAt := some t1, completedAt := none,
          passed := true } with ⟨r0, o0⟩
    have hr0 : r0.passed = false := by
      have h := runMetricsLoop_bad_op backend canary m hcv
          canary.spec.analysis.metrics
          { phase := ("Running"), successRate := 0, averageLatency := 0,
            metricResults := [], startedAt := some t1, completedAt := none,
            passed := true } hmem
      rw [hL] at h
      exact h
    cases o0 with
    | some err => exact hr0
    | none =>
        dsimp only
        rcases hS : runAnalysisSuccessRate backend canary r0 with ⟨r1, o1⟩
        have hr1 : r1.passed = false := by
          have h := runAnalysisSuccessRate_passed_false backend canary r0 hr0
          rw [hS] at h
          exact h
        cases o1 with
        | some err => exact hr1
        | none =>
            dsimp only
            rcases hT : runAnalysisLatency backend canary r1 with ⟨r2, o2⟩
            have hr2 : r2.passed = false := by
              have h := runAnalysisLatency_passed_false backend canary r1 hr1
              rw [hT] at h
              exact h
            cases o2 with
            | some err => exact hr2
            | none =>
                dsimp only
                rw [if_neg (by simp [hr2])]
                exact hr2

/-- The C10 witness metric: a mistyped operator. -/
def metricC10 : AnalysisMetric :=
  { name := "m", query := "up", threshold := 1, operator := "=>" }

/-- The C10 witness rollout carrying the mistyped metric. -/
def canaryC10 : CanaryDeployment :=
  { name := "c10", ns := "default", annotations := [],
    spec := { specBase with
      analysis := { metrics := [metricC10], successRate := 0, maxLatency := 0,
                    analysisInterval := "" } },
    status := statusProgressing }

/-- The C10 witness backend, answering 5 to every query. -/
def backendC10 : Backend := fun _ => Except.ok 5

/-- Witness for c10_bad_operator_fails_closed at the concrete rollout. -/
theorem c10_witness :
    compareValues 5 1 ("=>") = false ∧
    (RunAnalysis backendC10 canaryC10 0 1).1.passed = false := by
  have h := c10_bad_operator_fails_closed canaryC10 metricC10
      (by decide) (by decide)
  exact ⟨h.1 5 1, h.2.2 backendC10 0 1⟩

/-! ## C5 -/

/-- The C5 counterexample rollout: skipAnalysis is false and the analysis
block configures a named metric and a positive maxLatency, but
successRate is zero. -/
def canaryC5 : CanaryDeployment :=
  { name := "c5", ns := "default", annotations := [],
    spec := { specBase with
      analysis := { metrics := [{ name := "error-rate", query := "up",
                                  threshold := 1, operator := "<" }],
                    successRate := 0, maxLatency := 5,
                    analysisInterval := "" } },
    status := statusProgressing }

/-- Claim C5 is false on the code: with skipAnalysis false and criteria
configured (a named metric and maxLatency > 0, successRate = 0), the
reconcile of an unpaused step advances to the next step with no analysis
recorded even though the metrics backend is unreachable — the Analyzer was
never invoked, because the gate in handleProgressing tests only
successRate > 0. -/
theorem c5_counterexample :
    canaryC5.spec.skipAnalysis = false ∧
    canaryC5.spec.analysis.metrics ≠ [] ∧
    0 < canaryC5.spec.analysis.maxLatency ∧
    (handleProgressing envOk (some deadBackend) 0 0 0 canaryC5).1.status.currentStep = 1 ∧
    (handleProgressing envOk (some deadBackend) 0 0 0 canaryC5).1.status.analysisRun = none ∧
    (handleProgressing envOk (some deadBackend) 0 0 0 canaryC5).1.status.phase = .Progressing := by
  decide

/-- Claim C5 (amended): the Analyzer is invoked only when skipAnalysis is
false and analysis.successRate is positive — a configured named-metric
list or maxLatency alone does not trigger it, and skipAnalysis = true
never does.  Concretely, whenever skipAnalysis is true or successRate is
not positive, handleProgressing is entirely independent of the metrics
provider; and whenever the Analyzer does run without a query error, every
configured named metric criterion is evaluated (one result per metric). -/
theorem c5_analysis_gate :
    (∀ (env : RouteEnv) (p1 p2 : Option Backend) (now t1 t2 : Nat)
        (canary : CanaryDeployment),
        canary.spec.skipAnalysis = true ∨
          canary.spec.analysis.successRate ≤ 0 →
        handleProgressing env p1 now t1 t2 canary =
          handleProgressing env p2 now t1 t2 canary) ∧
    (∀ (backend : Backend) (canary : CanaryDeployment) (t1 t2 : Nat)
        (r : AnalysisResult),
        RunAnalysis backend canary t1 t2 = (r, none) →
        r.metricResults.length = canary.spec.analysis.metrics.length) := by
  constructor
  · intro env p1 p2 now t1 t2 canary h
    have hgate : ¬(canary.spec.skipAnalysis = false ∧
        0 < canary.spec.analysis.successRate) := by
      rcases h with h | h
      · rintro ⟨h1, -⟩
        rw [h] at h1
        cases h1
      · rintro ⟨-, h2⟩
        exact absurd h2 (not_lt.mpr h)
    have hgate' : ¬((weightUpdatedCanary canary
        (currentTrafficStep canary)).spec.skipAnalysis = false ∧
        0 < (weightUpdatedCanary canary
          (currentTrafficStep canary)).spec.analysis.successRate) :=
      hgate
    unfold handleProgressing
    by_cases hlen : canary.spec.trafficSplit.length ≤ canary.status.currentStep
    · simp only [if_pos hlen]
    · simp only [if_neg hlen]
      cases hU : UpdateTrafficSplit env.getRoute env.writeOk canary
          (currentTrafficStep canary).weight with
      | error e => rfl
      | ok route =>
          dsimp only
          by_cases hpause : (currentTrafficStep canary).pause
          · simp only [if_pos hpause]
          · simp only [if_neg hpause, if_neg hgate']
  · intro backend canary t1 t2 r h
    unfold RunAnalysis at h
    dsimp only at h
    rcases hL : runMetricsLoop backend canary canary.spec.analysis.metrics
        { phase := ("Running"), successRate := 0, averageLatency := 0,
          metricResults := [], startedAt := some t1, completedAt := none,
          passed := true } with ⟨r0, o0⟩
    rw [hL] at h
    have hlen := runMetricsLoop_none_length backend canary
        canary.spec.analysis.metrics
        { phase := ("Running"), successRate := 0, averageLatency := 0,
          metricResults := [], startedAt := some t1, completedAt := none,
          passed := true } r0
    cases o0 with
    | some err => simp at h
    | none =>
        have hlen0 : r0.metricResults.length =
            canary.spec.analysis.metrics.length := by
          simpa using hlen hL
        dsimp only at h
        rcases hS : runAnalysisSuccessRate backend canary r0 with ⟨r1, o1⟩
        have hmr1 : r1.metricResults = r0.metricResults := by
          have := runAnalysisSuccessRate_metricResults backend canary r0
          rw [hS] at this
          exact this
        rw [hS] at h
        cases o1 with
        | some err => simp at h
        | none =>
            dsimp only at h
            rcases hT : runAnalysisLatency backend canary r1 with ⟨r2, o2⟩
            have hmr2 : r2.metricResults = r1.metricResults := by
              have := runAnalysisLatency_metricResults backend canary r1
              rw [hT] at this
              exact this
            rw [hT] at h
            cases o2 with
            | some err => simp at h
            | none =>
                dsimp only at h
                rw [Prod.mk.injEq] at h
                obtain ⟨hr, -⟩ := h
                subst hr
                by_cases hp : r2.passed
                · rw [if_pos hp]
                  dsimp only
                  rw [hmr2, hmr1, hlen0]
                · rw [if_neg hp]
                  dsimp only
                  rw [hmr2, hmr1, hlen0]

/-- Witness for c5_analysis_gate: the first component at the concrete
gate-off rollout (the reconcile outcome is identical for a dead provider
and no provider at all), the second at a clean analysis run of the C10
rollout, whose single metric yields exactly one result. -/
theorem c5_witness :
    handleProgressing envOk (some deadBackend) 0 0 0 canaryC5 =
      handleProgressing envOk none 0 0 0 canaryC5 ∧
    (RunAnalysis backendC10 canaryC10 0 1).1.metricResults.length =
      canaryC10.spec.analysis.metrics.length :=
  ⟨c5_analysis_gate.1 envOk (some deadBackend) none 0 0 0 canaryC5
      (Or.inr (by decide)),
   c5_analysis_gate.2 backendC10 canaryC10 0 1
      (RunAnalysis backendC10 canaryC10 0 1).1 (by rfl)⟩

/-! ## C1 -/

/-- The C1 counterexample rollout: Progressing on an unpaused step with a
configured success-rate minimum. -/
def canaryC1 : CanaryDeployment :=
  { name := "c1", ns := "default", annotations := [],
    spec := specBase, status := statusProgressing }

/-- Claim C1 is false on the code: with the metrics backend unreachable,
the reconcile of a Progressing rollout (analysis configured, unpaused
step, successful weight change) leaves the phase at Progressing with a
30 s requeue and an error message — it does not transition to
RollingBack. -/
theorem c1_counterexample :
    (handleProgressing envOk (some deadBackend) 0 0 0 canaryC1).1.status.phase = .Progressing ∧
    (handleProgressing envOk (some deadBackend) 0 0 0 canaryC1).1.status.phase ≠ .RollingBack ∧
    (handleProgressing envOk (some deadBackend) 0 0 0 canaryC1).1.status.message =
      ("Analysis failed: failed to get success rate: connection refused") ∧
    (handleProgressing envOk (some deadBackend) 0 0 0 canaryC1).2.1 =
      { requeueAfter := some 30, err := none } := by
  decide

/-- A dead metrics backend makes RunAnalysis return an error whenever a
success-rate minimum is configured (it errors even earlier when a named
metric is configured). -/
theorem RunAnalysis_dead_errors (backend : Backend)
    (canary : CanaryDeployment) (e : String) (t1 t2 : Nat)
    (hdead : ∀ q, backend q = Except.error e)
    (hsr : 0 < canary.spec.analysis.successRate) :
    (RunAnalysis backend canary t1 t2).2.isSome = true := by
  unfold RunAnalysis
  dsimp only
  cases hms : canary.spec.analysis.metrics with
  | nil =>
      simp only [runMetricsLoop]
      unfold runAnalysisSuccessRate
      rw [if_pos hsr]
      unfold getSuccessRate
      rw [hdead]
      rfl
  | cons metric rest =>
      simp only [runMetricsLoop]
      unfold evaluateMetric
      dsimp only
      rw [hdead]
      rfl

/-- On a dead backend (and a configured success-rate minimum) the
controller-side runAnalysis wrapper reports a failed verdict with the
error and leaves the canary object untouched. -/
theorem runAnalysis_dead (backend : Backend) (canary : CanaryDeployment)
    (t1 t2 : Nat) (e : String) (hdead : ∀ q, backend q = Except.error e)
    (hsr : 0 < canary.spec.analysis.successRate) :
    ∃ err, runAnalysis (some backend) canary t1 t2 = (canary, false, some err) := by
  have h := RunAnalysis_dead_errors backend canary e t1 t2 hdead hsr
  rcases hRA : RunAnalysis backend canary t1 t2 with ⟨res, o⟩
  rw [hRA] at h
  cases o with
  | none => simp at h
  | some err =>
      refine ⟨err, ?_⟩
      unfold runAnalysis
      dsimp only
      rw [hRA]

/-- Claim C1 (amended): a metrics-backend query error during the analysis
of an unpaused step is treated as a transient reconcile error, not as a
failed verdict — the rollout keeps its phase (Progressing) and step, no
analysis run is recorded, and it is requeued after 30 s; RollingBack is
entered only on an error-free analysis whose verdict is passed = false. -/
theorem c1_query_error_transient (env : RouteEnv) (backend : Backend)
    (now t1 t2 : Nat) (canary : CanaryDeployment) (r0 : HTTPRoute)
    (e : String)
    (hphase : canary.status.phase = .Progressing)
    (hstep : canary.status.currentStep < canary.spec.trafficSplit.length)
    (hpause : (currentTrafficStep canary).pause = false)
    (hskip : canary.spec.skipAnalysis = false)
    (hsr : 0 < canary.spec.analysis.successRate)
    (hget : env.getRoute = Except.ok r0)
    (hwrite : env.writeOk = true)
    (hdead : ∀ q, backend q = Except.error e) :
    (handleProgressing env (some backend) now t1 t2 canary).1.status.phase = .Progressing ∧
    (handleProgressing env (some backend) now t1 t2 canary).1.status.currentStep =
      canary.status.currentStep ∧
    (handleProgressing env (some backend) now t1 t2 canary).1.status.analysisRun =
      canary.status.analysisRun ∧
    (handleProgressing env (some backend) now t1 t2 canary).2.1 =
      { requeueAfter := some 30, err := none } := by
  have hUs : UpdateTrafficSplit env.getRoute env.writeOk canary
      (currentTrafficStep canary).weight =
      Except.ok (updateHTTPRouteBackends r0 canary
        (currentTrafficStep canary).weight) := by
    rw [hget]
    unfold UpdateTrafficSplit
    rw [hwrite]
    rfl
  obtain ⟨err, herr⟩ := runAnalysis_dead backend
      (weightUpdatedCanary canary (currentTrafficStep canary))
      t1 t2 e hdead hsr
  have hgate : (weightUpdatedCanary canary
      (currentTrafficStep canary)).spec.skipAnalysis = false ∧
      0 < (weightUpdatedCanary canary
        (currentTrafficStep canary)).spec.analysis.successRate :=
    ⟨hskip, hsr⟩
  unfold handleProgressing
  rw [if_neg (not_le.mpr hstep)]
  dsimp only
  rw [hUs]
  dsimp only
  rw [if_neg (by simp [hpause]), if_pos hgate, herr]
  dsimp only
  refine ⟨?_, weightUpdatedCanary_step canary _,
    weightUpdatedCanary_analysisRun canary _, rfl⟩
  rw [weightUpdatedCanary_phase]
  exact hphase

/-- Witness for c1_query_error_transient at the concrete rollout with the
unreachable backend. -/
theorem c1_witness :
    (handleProgressing envOk (some deadBackend) 0 0 0 canaryC1).1.status.currentStep =
      canaryC1.status.currentStep ∧
    (handleProgressing envOk (some deadBackend) 0 0 0 canaryC1).1.status.analysisRun =
      canaryC1.status.analysisRun := by
  have h := c1_query_error_transient envOk deadBackend 0 0 0 canaryC1 routeBase
      ("connection refused") (by decide) (by decide) (by decide) (by decide)
      (by decide) (by rfl) (by rfl) (fun q => rfl)
  exact ⟨h.2.1, h.2.2.1⟩
